import Mathlib

/-!
Verification of the matching and extraction engine of `library/tenable_product.py`
(an Ansible module that selects a Tenable installer artifact for a target platform).

The Python code is shallowly embedded: Python strings become Lean `String`s,
Python `None` becomes `Option.none`, and the few stdlib operations the engine
uses (`str.lower`, `str.startswith`, `str.endswith`, substring membership via
`in`) are modelled as executable functions over the underlying character lists.
Python's `str.lower` is modelled by ASCII lowercasing (`Char.toLower`); every
string the engine compares is ASCII, so the restriction is immaterial.
-/

/-- Python `s.endswith(p)` : `p` is a suffix of `s`. -/
def py_endswith (s p : String) : Bool := decide (p.data <:+ s.data)

/-- Python `s.startswith(p)` : `p` is a prefix of `s`. -/
def py_startswith (s p : String) : Bool := decide (p.data <+: s.data)

/-- Python `needle in haystack` on strings: substring containment. -/
def py_in (needle haystack : String) : Bool := decide (needle.data <:+: haystack.data)

/-- Python `s.lower()` (ASCII fragment, sufficient for the engine's inputs). -/
def py_lower (s : String) : String := ⟨s.data.map Char.toLower⟩

/-! ## Identity equivalence resolver (`is_equivalent_architecture`, `is_equivalent_distro`) -/

/-- The `equivalences` dict of `is_equivalent_architecture`, in insertion order. -/
def arch_equivalences : List (String × List String) :=
  [("x86_64", ["amd64", "x86-64"]),
   ("armv7l", ["arm"]),
   ("aarch64", ["arm64"])]

/-- `is_equivalent_architecture(arch1, arch2)`: lower-case both, scan the alias
table checking either direction of base/alias membership, then fall back to
equality of the lower-cased strings. -/
def is_equivalent_architecture (arch1 arch2 : String) : Bool :=
  (arch_equivalences.any fun p =>
    (py_lower arch1 == p.1 && p.2.contains (py_lower arch2)) ||
    (py_lower arch2 == p.1 && p.2.contains (py_lower arch1)))
  || (py_lower arch1 == py_lower arch2)

/-- Alias list of the `"el"` (enterprise Linux) group, verbatim from the source
(note the mixed-case entry `"openEuler"`). -/
def el_aliases : List String :=
  ["redhat", "rhel", "fedora", "centos", "scientific", "slc",
   "ascendos", "cloudlinux", "psbm", "oraclelinux", "ovs",
   "oel", "virtuozzo", "xenserver", "alibaba",
   "euleros", "openEuler", "almalinux", "rocky", "tencentos",
   "eurolinux", "kylin linux advanced server", "miracle", "el"]

/-- Alias list of the `"ubuntu"` group, verbatim from the source
(note the mixed-case entry `"steamOS"`). -/
def ubuntu_aliases : List String :=
  ["ubuntu", "raspbian", "neon", "kde neon",
   "linux mint", "steamOS", "cumulus linux",
   "pop!_os", "parrot", "pardus gnu/linux", "uos", "deepin", "osmc"]

/-- The `equivalences` dict of `is_equivalent_distro`, in insertion order. -/
def distro_equivalences : List (String × List String) :=
  [("el", el_aliases),
   ("amzn", ["amazon", "amzn"]),
   ("ubuntu", ubuntu_aliases),
   ("debian", ["debian", "devuan", "kali"]),
   ("suse", ["suse", "sles", "sled", "opensuse", "opensuse tumbleweed",
             "sles_sap", "suse_linux", "opensuse leap", "alp-dolomite"])]

/-- The `for group, aliases in equivalences.items()` loop of
`is_equivalent_distro`: if the (already lower-cased) reported distro `d1` is in
an alias list and the (already lower-cased) catalog token `d2` starts with the
group key, return: for tokens starting with `"el"`, whether `major` occurs as a
substring of `d2`; otherwise `true`.  If `d2` does not start with the group key
the loop continues with the remaining groups. -/
def distro_loop (d1 d2 major : String) : List (String × List String) → Bool
  | [] => false
  | (group, aliases) :: rest =>
    if aliases.contains d1 then
      if py_startswith d2 group then
        if py_startswith d2 "el" then py_in major d2 else true
      else distro_loop d1 d2 major rest
    else distro_loop d1 d2 major rest

/-- `is_equivalent_distro(distro1, major_version, distro2)`: lower-case both
distro strings (the aliases table entries are compared verbatim) and run the
group loop; no group match means `False`. -/
def is_equivalent_distro (distro1 major_version distro2 : String) : Bool :=
  distro_loop (py_lower distro1) (py_lower distro2) major_version distro_equivalences

/-! ## Artifact metadata extractor (`TenableInfoMetadata`, `TenableDownloadInfo.__init__`) -/

/-- `TenableInfoMetadata`: one keyword-argument field per catalog metadata key.
Each Python parameter defaults to `""` and the catalog may pass a JSON string
or JSON `null` (Python `None`) for it, so fields are `Option String` with
default `some ""`. -/
structure TenableInfoMetadata where
  os : Option String := some ""
  md5 : Option String := some ""
  arch : Option String := some ""
  sha256 : Option String := some ""
  os_type : Option String := some ""
  product : Option String := some ""
  version : Option String := some ""
  product_type : Option String := some ""
  release_date : Option String := some ""
  product_notes : Option String := some ""
  product_release_date : Option String := some ""
deriving DecidableEq, Repr

/-- Model of the anchored tail `\d+\.\d+\.\d+` of the version group: `rcs` is
the reversed character list of the text before the hyphen, which must read
(backwards) as digits, a dot, digits, a dot, digits, with arbitrary text
before. Each maximal backward digit run must be nonempty and followed by the
required dot, which matches the greedy/backtracking semantics exactly (a
shorter digit run would be preceded by a digit, never by the dot). -/
def rev_version_match (rcs : List Char) : Bool :=
  let d1 := rcs.takeWhile Char.isDigit
  if d1.isEmpty then false else
  match rcs.drop d1.length with
  | '.' :: r1 =>
    let d2 := r1.takeWhile Char.isDigit
    if d2.isEmpty then false else
    match r1.drop d2.length with
    | '.' :: r2 => !(r2.takeWhile Char.isDigit).isEmpty
    | _ => false
  | _ => false

/-- Model of
`re.search(r"(?P<version>\d+\.\d+\.\d+)-(?:(?P<os>[^-]+\d*))\.(?P<ext>[^.]+)$", name)`
returning the `os` group. Because `(?P<ext>[^.]+)$` must reach the end of the
string, `ext` is forced to be the (nonempty, dot-free) suffix after the LAST
dot; because `(?P<os>[^-]+\d*)` is hyphen-free and preceded by a literal `-`,
the `os` group is forced to span from just after the last hyphen before that
dot up to the dot; the version must immediately precede that hyphen. The
decomposition is therefore unique and independent of the search start
position. (`$` is modelled as end-of-string; the trailing-newline case of
Python's `$` cannot arise for filenames.) -/
def regex_os_group (s : String) : Option String :=
  let rcs := s.data.reverse
  let ext := rcs.takeWhile (· ≠ '.')
  if ext.isEmpty then none
  else
    match rcs.drop ext.length with
    | '.' :: rest1 =>
      let os_rev := rest1.takeWhile (· ≠ '-')
      if os_rev.isEmpty then none
      else
        match rest1.drop os_rev.length with
        | '-' :: rest2 => if rev_version_match rest2 then some ⟨os_rev.reverse⟩ else none
        | _ => none
    | _ => none

/-- One step of the scan of `re.split(r"(?<!\.)\.(?!\.)|(?<!_)_(?!_)", s, maxsplit=1)`:
find the leftmost `.` (or `_`) that is neither preceded nor followed by the
same character; return the characters before it and, if found, those after. -/
def split_os_arch_aux (prev : Option Char) : List Char → List Char × Option (List Char)
  | [] => ([], none)
  | c :: rest =>
    if (c = '.' ∧ prev ≠ some '.' ∧ rest.head? ≠ some '.') ∨
       (c = '_' ∧ prev ≠ some '_' ∧ rest.head? ≠ some '_') then
      ([], some rest)
    else
      let r := split_os_arch_aux (some c) rest
      (c :: r.1, r.2)

/-- `re.split(r"(?<!\.)\.(?!\.)|(?<!_)_(?!_)", s, maxsplit=1)`: one or two
parts, split at the first unescaped `.` or `_` (doubled separators are never
split points). -/
def split_os_arch (s : String) : List String :=
  match split_os_arch_aux none s.data with
  | (pre, none) => [⟨pre⟩]
  | (pre, some post) => [⟨pre⟩, ⟨post⟩]

/-- The metadata-population part of `TenableDownloadInfo.__init__`
(lines 149-168): `dmg` / `tar.gz` suffixes set `os_type` unconditionally and
return; otherwise the version regex is tried and, only where a field is Python
`None`, the filename-derived value is filled in.  Python assigns the three
fields one after the other; each assignment touches a distinct field, so the
result is expressed field by field here, with the `os_type` rule reading the
post-assignment `os` (`new_os`) exactly as `self.meta_data.os.lower()` does
(that value is necessarily a string, never `None`: either it already was, or
the line above just assigned one — `getD ""` is only for totality). -/
def extract_from_filename (name : String) (md0 : TenableInfoMetadata) : TenableInfoMetadata :=
  if py_endswith name "dmg" then { md0 with os_type := some "darwin" }
  else if py_endswith name "tar.gz" then { md0 with os_type := some "linux" }
  else
    match regex_os_group name with
    | none => md0
    | some osgrp =>
      let os_arch := split_os_arch osgrp
      let new_os := if md0.os = none then some (os_arch.headD "") else md0.os
      let new_os_type :=
        if md0.os_type = none then
          some (if py_startswith (py_lower (new_os.getD "")) "win" then "windows" else "linux")
        else md0.os_type
      let new_arch :=
        if md0.arch = none then
          if 1 < os_arch.length then some (os_arch.getD 1 "") else md0.arch
        else md0.arch
      { md0 with os := new_os, os_type := new_os_type, arch := new_arch }

/-- The fixed URL template `TENABLE_DOWNLOAD_API_URI.format(product_id=...)`;
Python formats a `None` id as the string `"None"`. -/
def tenable_download_api_uri (id : Option Int) : String :=
  "https://www.tenable.com/downloads/api/v1/public/pages/nessus-agents/downloads/"
    ++ (match id with | some n => toString n | none => "None")
    ++ "/download?i_agree_to_tenable_license_agreement=true"

/-- `TenableDownloadInfo`: the keyword arguments of `__init__`, with the same
defaults (`meta_data = None` becomes `{}`, i.e. every metadata field at its
`some ""` default). `download_uri` and the extracted metadata are computed by
`mkDownloadInfo` below. -/
structure TenableDownloadInfo where
  id : Option Int := none
  file : String := ""
  name : String := ""
  size : Option Int := none
  description : String := ""
  sort_order : String := ""
  created_at : String := ""
  updated_at : String := ""
  page_id : Option Int := none
  publish : Option Bool := none
  required_auth : Option Bool := none
  disabled : Option Bool := none
  type : String := ""
  meta_data : TenableInfoMetadata := {}
  download_uri : String := ""
deriving DecidableEq, Repr

/-- The body of `TenableDownloadInfo.__init__`: set `download_uri` from the
template and run the filename extraction over the supplied metadata. -/
def mkDownloadInfo (raw : TenableDownloadInfo) : TenableDownloadInfo :=
  { raw with
    download_uri := tenable_download_api_uri raw.id
    meta_data := extract_from_filename raw.name raw.meta_data }

/-! ## Product catalog model (`TenableDownloadInfo.is_match`, `TenableProductInfo`) -/

/-- `TenableDownloadInfo.is_match`: the darwin/dmg short-circuit, then the
distro and architecture equivalence conjunction. The Python body is wrapped in
`try: ... except: ...; return False`: when `meta_data.os` is `None`,
`is_equivalent_distro` raises `AttributeError` (on `.lower()`) and the result
is `False`; when `meta_data.os` is a string but `meta_data.arch` is `None`,
either the distro check is already `False` (short-circuit, result `False`) or
`is_equivalent_architecture` raises and the result is `False`. So the result
is `False` whenever either field is `None`, as encoded here. -/
def TenableDownloadInfo.is_match (d : TenableDownloadInfo)
    (os major_version arch os_type : String) : Bool :=
  if py_lower os_type == "darwin" && py_endswith d.name "dmg" then true
  else
    match d.meta_data.os, d.meta_data.arch with
    | some mos, some march =>
      is_equivalent_distro os major_version mos && is_equivalent_architecture arch march
    | _, _ => false

/-- `TenableProductInfo`: the keyword arguments of `__init__`; `downloads`
holds the already-constructed records (the `TenableDownloadInfo(**d)`
comprehension is `mkProductInfo` below). -/
structure TenableProductInfo where
  product_name : String
  sort_order : String
  downloads : List TenableDownloadInfo
  release_notes : String := ""
  version : String := ""
deriving DecidableEq, Repr

/-- The body of `TenableProductInfo.__init__`: construct one
`TenableDownloadInfo` per raw entry, in catalog order. -/
def mkProductInfo (product_name sort_order : String) (downloads : List TenableDownloadInfo)
    (release_notes : String := "") (version : String := "") : TenableProductInfo :=
  { product_name, sort_order, release_notes, version,
    downloads := downloads.map mkDownloadInfo }

/-- `TenableProductInfo.list_all_os_and_arch_options`: the (os, arch) metadata
pair of every download in the entry. -/
def TenableProductInfo.list_all_os_and_arch_options (p : TenableProductInfo) :
    List (Option String × Option String) :=
  p.downloads.map fun d => (d.meta_data.os, d.meta_data.arch)

/-- `TenableProductInfo.get_download_for`: scan `downloads` in order and return
the first record whose `is_match` holds; if none does, raise `ValueError`
carrying `list_all_os_and_arch_options` (modelled as the `Except.error`
payload). -/
def TenableProductInfo.get_download_for (p : TenableProductInfo)
    (os major_version arch os_type : String) :
    Except (List (Option String × Option String)) TenableDownloadInfo :=
  match p.downloads.find? (fun d => d.is_match os major_version arch os_type) with
  | some d => .ok d
  | none => .error p.list_all_os_and_arch_options

/-! ## Catalog page decoder (`TenablePageParser`) -/

/-- JSON values, the result type of `json.loads`. -/
inductive Json where
  | null
  | bool (b : Bool)
  | num (n : Int)
  | str (s : String)
  | arr (elems : List Json)
  | obj (fields : List (String × Json))

/-- The Python runtime errors the decoder can raise past its boundary:
`TypeError` (subscripting `None` or a non-dict) and `KeyError` (missing key). -/
inductive PyErr where
  | typeError
  | keyError
deriving DecidableEq, Repr

/-- Python `value[key]` on a decoded JSON value: a dict lookup, `KeyError` when
the key is absent, `TypeError` when the value is not a dict (in particular when
it is `None`, which is handled at the call site below). -/
def Json.subscript : Json → String → Except PyErr Json
  | .obj fields, key =>
    match fields.find? (fun kv => kv.1 == key) with
    | some kv => .ok kv.2
    | none => .error .keyError
  | _, _ => .error .typeError

/-- The event stream `html.parser.HTMLParser` dispatches to the three
overridden handlers (the HTML tokenizer itself is Python stdlib, external to
this repository). Attribute values are the (name, value) pairs the tokenizer
reports. -/
inductive HtmlEvent where
  | startTag (tag : String) (attrs : List (String × String))
  | data (text : String)
  | endTag (tag : String)

/-- The mutable state of `TenablePageParser`, with the `__init__` defaults:
look for a `script` tag carrying the attribute pair `("id", "__NEXT_DATA__")`. -/
structure TenablePageParser where
  find_tag : String := "script"
  find_attrs : String × String := ("id", "__NEXT_DATA__")
  in_special_script : Bool := false
  json_data : String := ""
  decoded_json : Option Json := none

/-- `handle_starttag`: enter the special script when the marker attribute pair
is among the tag's attributes. -/
def TenablePageParser.handle_starttag (p : TenablePageParser)
    (tag : String) (attrs : List (String × String)) : TenablePageParser :=
  if tag == p.find_tag && attrs.contains p.find_attrs then
    { p with in_special_script := true }
  else p

/-- `handle_data`: accumulate text while inside the special script. -/
def TenablePageParser.handle_data (p : TenablePageParser) (text : String) : TenablePageParser :=
  if p.in_special_script then { p with json_data := p.json_data ++ text } else p

/-- `handle_endtag`: leave the special script and try to decode the
accumulated text; a `json.JSONDecodeError` is swallowed (`return None`), so on
failure `decoded_json` keeps its previous value (normally `None`). `json.loads`
is Python stdlib, external to this repository, so it is a parameter: `none`
models a raised `JSONDecodeError`. -/
def TenablePageParser.handle_endtag (jsonLoads : String → Option Json)
    (p : TenablePageParser) (tag : String) : TenablePageParser :=
  if tag == p.find_tag && p.in_special_script then
    match jsonLoads p.json_data with
    | some j => { p with in_special_script := false, decoded_json := some j }
    | none => { p with in_special_script := false }
  else p

/-- `HTMLParser.feed`: dispatch each tokenizer event to its handler. -/
def TenablePageParser.feed (jsonLoads : String → Option Json)
    (p : TenablePageParser) (events : List HtmlEvent) : TenablePageParser :=
  events.foldl
    (fun p e =>
      match e with
      | .startTag t a => p.handle_starttag t a
      | .data t => p.handle_data t
      | .endTag t => p.handle_endtag jsonLoads t)
    p

/-- `TenablePageParser.get_product_info`: feed the page if nothing is decoded
yet, then take `decoded_json['props']['pageProps']['products']` and return its
entries. Subscripting when `decoded_json` is still `None` is a Python
`TypeError` (`'NoneType' object is not subscriptable`). The per-entry record
construction `TenableProductInfo(**products[product_name])` (lines 237-240) is
`mkProductInfo`/`mkDownloadInfo` above; it is only reached on `Except.ok`, so
the returned value here is the raw products mapping it would be built from. -/
def TenablePageParser.get_product_info (jsonLoads : String → Option Json)
    (p : TenablePageParser) (events : List HtmlEvent) :
    Except PyErr (List (String × Json)) :=
  let p := if p.decoded_json.isNone then p.feed jsonLoads events else p
  match p.decoded_json with
  | none => .error .typeError
  | some j => do
    let props ← j.subscript "props"
    let pageProps ← props.subscript "pageProps"
    let products ← pageProps.subscript "products"
    match products with
    | .obj fields => .ok fields
    | _ => .error .typeError

/-! ## Concrete catalog data used by the selection claims -/

/-- A placeholder record (all `__init__` defaults), used as the out-of-range
default of `List.getD` when indexing download lists. -/
def dummyDownload : TenableDownloadInfo := {}

/-- Raw catalog entry `ubuntu1404/amd64` (explicit metadata, as the real
catalog supplies). -/
def rawUbuntuAmd64 : TenableDownloadInfo :=
  { id := some 22712,
    name := "NessusAgent-10.6.1-ubuntu1404_amd64.deb",
    file := "NessusAgent-10.6.1-ubuntu1404_amd64.deb",
    meta_data := { os := some "ubuntu1404", arch := some "amd64", os_type := some "linux" } }

/-- Raw catalog entry `ubuntu1404/arm64`. -/
def rawUbuntuArm64 : TenableDownloadInfo :=
  { id := some 22713,
    name := "NessusAgent-10.6.1-ubuntu1404_arm64.deb",
    file := "NessusAgent-10.6.1-ubuntu1404_arm64.deb",
    meta_data := { os := some "ubuntu1404", arch := some "arm64", os_type := some "linux" } }

/-- Raw catalog entry `el8/x86_64`. -/
def rawEl8X86_64 : TenableDownloadInfo :=
  { id := some 22714,
    name := "NessusAgent-10.6.1-el8.x86_64.rpm",
    file := "NessusAgent-10.6.1-el8.x86_64.rpm",
    meta_data := { os := some "el8", arch := some "x86_64", os_type := some "linux" } }

/-- A product entry whose artifacts carry, in catalog order, the metadata
pairs (ubuntu1404, amd64), (ubuntu1404, arm64), (el8, x86_64). -/
def exampleProduct : TenableProductInfo :=
  mkProductInfo "Nessus Agents - 10.6.1" ""
    [rawUbuntuAmd64, rawUbuntuArm64, rawEl8X86_64]

/-! ## Claims -/

/-- C1: the claim says that for an artifact built from the filename
`NessusAgent-10.6.1-ubuntu1404_amd64.deb` with no explicit metadata, extraction
sets `os = "ubuntu1404"`, `arch = "amd64"`, `os_type = "linux"`. The code does
not: with `meta_data` absent, every `TenableInfoMetadata` field defaults to the
string `""`, so the `is None` guards of `__init__` never fire and all three
fields stay `""` — even though the version regex does recover the platform
token `ubuntu1404_amd64` from the filename. This theorem evaluates the
embedded `__init__` at exactly that input. -/
theorem C1_extraction_leaves_defaults :
    (mkDownloadInfo { name := "NessusAgent-10.6.1-ubuntu1404_amd64.deb" }).meta_data.os
        = some "" ∧
    (mkDownloadInfo { name := "NessusAgent-10.6.1-ubuntu1404_amd64.deb" }).meta_data.arch
        = some "" ∧
    (mkDownloadInfo { name := "NessusAgent-10.6.1-ubuntu1404_amd64.deb" }).meta_data.os_type
        = some "" ∧
    regex_os_group "NessusAgent-10.6.1-ubuntu1404_amd64.deb" = some "ubuntu1404_amd64" := by
  decide

/-- C3: the enterprise-Linux group applies the major-version substring gate
(`el8` accepts major version `"8"` and rejects `"7"`), and non-`el` groups
ignore the version entirely (`"Ubuntu"`/`"ubuntu2004"` is equivalent for every
major-version string). -/
theorem C3_el_version_gate :
    is_equivalent_distro "CentOS" "8" "el8" = true ∧
    is_equivalent_distro "CentOS" "7" "el8" = false ∧
    ∀ v : String, is_equivalent_distro "Ubuntu" v "ubuntu2004" = true :=
  ⟨by decide, by decide, fun _ => rfl⟩

/-- C9: the claim says distro alias matching is case-insensitive, recognizing
`openEuler` in the enterprise-Linux group and `SteamOS` in the ubuntu group.
The code lower-cases the reported name but compares it against the alias table
entries verbatim, and the table stores the mixed-case entries `"openEuler"` and
`"steamOS"`; those two aliases can therefore never match any casing of the
name, and the code returns `false` where the claim requires `true`. -/
theorem C9_mixed_case_aliases_dead :
    el_aliases.contains "openEuler" = true ∧
    ubuntu_aliases.contains "steamOS" = true ∧
    is_equivalent_distro "openEuler" "8" "el8" = false ∧
    is_equivalent_distro "OpenEuler" "8" "el8" = false ∧
    is_equivalent_distro "steamOS" "20" "ubuntu2004" = false ∧
    is_equivalent_distro "SteamOS" "20" "ubuntu2004" = false := by
  decide

/-- C7: `is_equivalent_architecture` is symmetric for every pair of
architecture strings (in particular over every pair drawn from the alias
table): each alias-table group is checked in both directions and the fallback
is plain equality of the lower-cased strings. -/
theorem C7_arch_equivalence_symm (a b : String) :
    is_equivalent_architecture a b = is_equivalent_architecture b a := by
  unfold is_equivalent_architecture arch_equivalences
  simp only [List.any_cons, List.any_nil, Bool.or_false]
  generalize py_lower a = x
  generalize py_lower b = y
  have hxy : (x == y) = (y == x) := by
    by_cases h : x = y
    · subst h; rfl
    · rw [beq_eq_false_iff_ne.mpr h, beq_eq_false_iff_ne.mpr (Ne.symm h)]
  rw [hxy]
  generalize (x == "x86_64" && ["amd64", "x86-64"].contains y) = A
  generalize (y == "x86_64" && ["amd64", "x86-64"].contains x) = B
  generalize (x == "armv7l" && ["arm"].contains y) = C
  generalize (y == "armv7l" && ["arm"].contains x) = D
  generalize (x == "aarch64" && ["arm64"].contains y) = E
  generalize (y == "aarch64" && ["arm64"].contains x) = F
  generalize (y == x) = G
  cases A <;> cases B <;> cases C <;> cases D <;> cases E <;> cases F <;> cases G <;> rfl

/-- C10: with an empty major-version string the enterprise-Linux version gate
is vacuous: for every reported name whose lower-casing is in the `el` alias
list and every candidate token whose lower-casing starts with `"el"`,
`is_equivalent_distro distro "" token` is `true`, because `"" in token` always
holds in Python (the empty list is an infix of every list). -/
theorem C10_empty_major_version_vacuous (distro token : String)
    (h1 : el_aliases.contains (py_lower distro) = true)
    (h2 : py_startswith (py_lower token) "el" = true) :
    is_equivalent_distro distro "" token = true := by
  simp only [is_equivalent_distro, distro_equivalences, distro_loop, h1, h2, if_true]
  exact decide_eq_true List.nil_infix

/-- C10 witness: `distrosEquivalent("CentOS", "", "el99")` is `true`. -/
theorem C10_empty_major_version_vacuous_witness :
    is_equivalent_distro "CentOS" "" "el99" = true :=
  C10_empty_major_version_vacuous "CentOS" "el99" (by decide) (by decide)

/-- C8: any artifact whose filename ends in `.dmg` is matched unconditionally
by a query whose reported OS-type lower-cases to `"darwin"`, regardless of the
reported architecture and of the artifact's metadata (the predicate's first
branch tests only those two facts). -/
theorem C8_darwin_dmg_unconditional (d : TenableDownloadInfo)
    (os major_version arch os_type : String)
    (h1 : py_endswith d.name ".dmg" = true)
    (h2 : py_lower os_type = "darwin") :
    d.is_match os major_version arch os_type = true := by
  have h3 : py_endswith d.name "dmg" = true := by
    simp only [py_endswith, decide_eq_true_eq] at h1 ⊢
    exact List.IsSuffix.trans (by decide) h1
  simp [TenableDownloadInfo.is_match, h2, h3]

/-- A raw `.dmg` catalog entry carrying unrelated explicit (os, arch)
metadata, used to witness the unconditional darwin match. -/
def rawDmgEntry : TenableDownloadInfo :=
  { name := "Nessus-10.6.1.dmg",
    meta_data := { os := some "el8", arch := some "x86_64" } }

/-- C8 witness: a `.dmg` artifact with arbitrary (here el8/x86_64) metadata is
matched by the query (os="Windows", major="3", arch="sparc", osType="Darwin"). -/
theorem C8_darwin_dmg_unconditional_witness :
    (mkDownloadInfo rawDmgEntry).is_match "Windows" "3" "sparc" "Darwin" = true :=
  C8_darwin_dmg_unconditional _ "Windows" "3" "sparc" "Darwin" (by decide) (by decide)

/-- C4: when no artifact of an entry matches the query, selection returns the
`ValueError` condition (not a silent empty result) carrying
`list_all_os_and_arch_options`, whose length equals the artifact count. -/
theorem C4_no_match_reports_options (p : TenableProductInfo)
    (os major_version arch os_type : String)
    (h : ∀ d ∈ p.downloads, d.is_match os major_version arch os_type = false) :
    p.get_download_for os major_version arch os_type
        = .error p.list_all_os_and_arch_options ∧
    p.list_all_os_and_arch_options.length = p.downloads.length := by
  have hf : p.downloads.find? (fun d => d.is_match os major_version arch os_type) = none :=
    List.find?_eq_none.mpr fun d hd => by simp [h d hd]
  exact ⟨by simp [TenableProductInfo.get_download_for, hf],
         by simp [TenableProductInfo.list_all_os_and_arch_options]⟩

/-- C4 witness: no artifact of the example entry matches a Windows query; the
error payload lists all three (os, arch) pairs. -/
theorem C4_no_match_reports_options_witness :
    exampleProduct.get_download_for "Windows" "10" "x86_64" "windows"
        = .error exampleProduct.list_all_os_and_arch_options ∧
    exampleProduct.list_all_os_and_arch_options.length = exampleProduct.downloads.length :=
  C4_no_match_reports_options exampleProduct "Windows" "10" "x86_64" "windows" (by decide)

/-- `List.find?` returns the element at index `i` when it satisfies the
predicate and no earlier element does. -/
theorem find_first_of_match {α : Type} (f : α → Bool) (dflt : α) (l : List α) (i : Nat)
    (hi : i < l.length) (hm : f (l.getD i dflt) = true)
    (hb : ∀ j, j < i → f (l.getD j dflt) = false) :
    l.find? f = some (l.getD i dflt) := by
  induction l generalizing i with
  | nil => simp at hi
  | cons x xs ih =>
    cases i with
    | zero =>
      simp only [List.getD_cons_zero] at hm ⊢
      simp [List.find?_cons, hm]
    | succ n =>
      have hx : f x = false := by simpa using hb 0 (Nat.succ_pos n)
      rw [List.find?_cons_of_neg _ (by simp [hx])]
      simp only [List.getD_cons_succ] at hm ⊢
      exact ih n (by simpa using hi) hm fun j hj => by
        simpa using hb (j + 1) (by omega)

/-- C2: selection scans the downloads in catalog order and returns the first
record whose predicate holds (first conjunct); in particular, over the example
catalog (ubuntu1404/amd64, ubuntu1404/arm64, el8/x86_64) the query
(os="Ubuntu", majorVersion="14", arch="x86_64", osType="Debian") returns the
ubuntu1404/amd64 artifact, since amd64 ≡ x86_64 (second conjunct). -/
theorem C2_first_match_selection :
    (∀ (p : TenableProductInfo) (os major_version arch os_type : String) (i : Nat),
      i < p.downloads.length →
      (p.downloads.getD i dummyDownload).is_match os major_version arch os_type = true →
      (∀ j, j < i →
        (p.downloads.getD j dummyDownload).is_match os major_version arch os_type = false) →
      p.get_download_for os major_version arch os_type
        = .ok (p.downloads.getD i dummyDownload)) ∧
    exampleProduct.get_download_for "Ubuntu" "14" "x86_64" "Debian"
      = .ok (mkDownloadInfo rawUbuntuAmd64) := by
  constructor
  · intro p os major_version arch os_type i hi hm hb
    unfold TenableProductInfo.get_download_for
    rw [find_first_of_match _ dummyDownload _ i hi hm hb]
  · rfl

/-- C2 witness: the general first-match law applied at index 0 of the example
catalog. -/
theorem C2_first_match_selection_witness :
    exampleProduct.get_download_for "Ubuntu" "14" "x86_64" "Debian"
      = .ok (exampleProduct.downloads.getD 0 dummyDownload) :=
  C2_first_match_selection.1 exampleProduct "Ubuntu" "14" "x86_64" "Debian" 0
    (by decide) (by decide) fun j hj => absurd hj (Nat.not_lt_zero j)

/-- A raw `.dmg` catalog entry that explicitly supplies `os_type = "windows"`,
exhibiting the extraction overwrite. -/
def rawDmgWindowsOverride : TenableDownloadInfo :=
  { name := "Nessus-10.6.1.dmg",
    meta_data := { os_type := some "windows" } }

/-- C6 counterexample: the claim says an explicitly supplied `os_type` survives
extraction unchanged for EVERY filename, including `.dmg`/`.tar.gz` ones. It
does not: for a `.dmg` filename the first extraction rule overwrites the
explicit `os_type = "windows"` with `"darwin"`. -/
theorem C6_explicit_os_type_overwritten :
    (mkDownloadInfo rawDmgWindowsOverride).meta_data.os_type = some "darwin" ∧
    ¬ (mkDownloadInfo rawDmgWindowsOverride).meta_data.os_type = some "windows" := by
  decide

/-- C6 amended: explicit (non-null) metadata is never overwritten by the
pattern-based extraction — `os` and `arch` survive for every filename, and
`os_type` survives for every filename NOT ending in `dmg` or `tar.gz` — but a
filename ending in `dmg` forces `os_type = "darwin"` and one ending in
`tar.gz` forces `os_type = "linux"`, overriding any explicit value. -/
theorem C6_explicit_metadata_precedence_amended (raw : TenableDownloadInfo) (s : String) :
    (raw.meta_data.os = some s → (mkDownloadInfo raw).meta_data.os = some s) ∧
    (raw.meta_data.arch = some s → (mkDownloadInfo raw).meta_data.arch = some s) ∧
    (py_endswith raw.name "dmg" = false → py_endswith raw.name "tar.gz" = false →
      raw.meta_data.os_type = some s → (mkDownloadInfo raw).meta_data.os_type = some s) ∧
    (py_endswith raw.name "dmg" = true →
      (mkDownloadInfo raw).meta_data.os_type = some "darwin") ∧
    (py_endswith raw.name "dmg" = false → py_endswith raw.name "tar.gz" = true →
      (mkDownloadInfo raw).meta_data.os_type = some "linux") := by
  have hmk : (mkDownloadInfo raw).meta_data = extract_from_filename raw.name raw.meta_data := rfl
  refine ⟨?_, ?_, ?_, ?_, ?_⟩ <;> rw [hmk] <;> unfold extract_from_filename
  · intro h
    cases hdmg : py_endswith raw.name "dmg"
    case true => simp [hdmg, h]
    case false =>
      cases htar : py_endswith raw.name "tar.gz"
      case true => simp [hdmg, htar, h]
      case false =>
        cases hre : regex_os_group raw.name
        case none => simp [hdmg, htar, hre, h]
        case some g => simp [hdmg, htar, hre, h]
  · intro h
    cases hdmg : py_endswith raw.name "dmg"
    case true => simp [hdmg, h]
    case false =>
      cases htar : py_endswith raw.name "tar.gz"
      case true => simp [hdmg, htar, h]
      case false =>
        cases hre : regex_os_group raw.name
        case none => simp [hdmg, htar, hre, h]
        case some g => simp [hdmg, htar, hre, h]
  · intro hdmg htar h
    cases hre : regex_os_group raw.name
    case none => simp [hdmg, htar, hre, h]
    case some g => simp [hdmg, htar, hre, h]
  · intro hdmg
    simp [hdmg]
  · intro hdmg htar
    simp [hdmg, htar]

/-- C6 witness: for the `.dmg` entry with explicit `os_type = "windows"`, the
(default) explicit `os = ""` survives, and the `dmg` rule yields `"darwin"`. -/
theorem C6_explicit_metadata_precedence_witness :
    (mkDownloadInfo rawDmgWindowsOverride).meta_data.os = some "" ∧
    (mkDownloadInfo rawDmgWindowsOverride).meta_data.os_type = some "darwin" :=
  ⟨(C6_explicit_metadata_precedence_amended rawDmgWindowsOverride "").1 (by decide),
   (C6_explicit_metadata_precedence_amended rawDmgWindowsOverride "").2.2.2.1 (by decide)⟩

/-- Appending to the empty string is the identity (the accumulated
`json_data` starts out as `""`). -/
theorem empty_string_append (s : String) : "" ++ s = s := by
  obtain ⟨l⟩ := s
  rfl

/-- C5: the claim says a malformed embedded JSON block is treated as an empty
catalog, so that querying product info does not crash and a subsequent
selection yields the no-matching-artifact condition. The code does not:
`handle_endtag` swallows the `JSONDecodeError` and leaves `decoded_json` as
`None`, but `get_product_info` then evaluates
`self.decoded_json['props']`, raising `TypeError` (`'NoneType' object is not
subscriptable`) — it crashes before any catalog (empty or not) exists and
before selection could run. Stated for every page whose marked script data
fails to decode (`jsonLoads s = none` models the raised `JSONDecodeError`
of the external `json.loads`). -/
theorem C5_malformed_json_crashes (jsonLoads : String → Option Json) (s : String)
    (h : jsonLoads s = none) :
    TenablePageParser.get_product_info jsonLoads {}
      [.startTag "script" [("id", "__NEXT_DATA__")], .data s, .endTag "script"]
      = .error .typeError := by
  unfold TenablePageParser.get_product_info TenablePageParser.feed
  simp only [List.foldl_cons, List.foldl_nil]
  unfold TenablePageParser.handle_starttag TenablePageParser.handle_data
    TenablePageParser.handle_endtag
  simp [empty_string_append, h]

/-- C5 witness: a concrete decoder failing on the concrete malformed payload
`"this is not json"`: product-info extraction raises `TypeError`. -/
theorem C5_malformed_json_crashes_witness :
    TenablePageParser.get_product_info (fun _ => none) {}
      [.startTag "script" [("id", "__NEXT_DATA__")], .data "this is not json",
       .endTag "script"]
      = .error .typeError :=
  C5_malformed_json_crashes (fun _ => none) "this is not json" rfl
